import Mathlib

/-!
Verification of the niconico mylist client (src/lib.rs).

The development shallowly embeds the crate's data model, the serde-derived
JSON decoding/encoding of its response types, the per-request response
handling of `get_my_mylists` / `get_mylist`, and the pagination-aggregation
loop of `get_mylist_all`.  Network transport is modelled as an oracle: a
function from the request parameters (page size, page number) to the
transport outcome, so that the aggregation logic can be analysed for every
possible sequence of server responses.
-/

/-- A JSON value.  Numbers are modelled as integer literals, which covers
every numeric field the claims touch (all counters are `usize` on the wire;
the one `f32` field is exercised only at `null`). -/
inductive Json where
  | null
  | bool (b : Bool)
  | num (n : Int)
  | str (s : String)
  | arr (elems : List Json)
  | obj (fields : List (String × Json))

/-- First binding of a key in a JSON object's field list. -/
def lookupField : List (String × Json) → String → Option Json
  | [], _ => none
  | (k, v) :: rest, key => if k = key then some v else lookupField rest key

/-- Field access on a JSON object (`none` on non-objects and missing keys). -/
def Json.getKey : Json → String → Option Json
  | .obj fields, key => lookupField fields key
  | _, _ => none

/-- Index access on a JSON array. -/
def Json.getIdx : Json → Nat → Option Json
  | .arr elems, i => elems.get? i
  | _, _ => none

/-! ## Data model (structs of src/lib.rs) -/

/-- Mirrors `struct NicoMeta` (serde `rename_all = "camelCase"`). -/
structure NicoMeta where
  status : Nat
  error_code : Option String
deriving DecidableEq, Repr

/-- Mirrors `struct NicoResult<T>`: the success envelope.  Note that `data`
is a mandatory field of type `T`, not an `Option`. -/
structure NicoResult (T : Type) where
  meta : NicoMeta
  data : T
deriving DecidableEq, Repr

/-- Mirrors `struct NicoError`: the error envelope, `meta` only. -/
structure NicoError where
  meta : NicoMeta
deriving DecidableEq, Repr

/-- Mirrors `struct Owner`. -/
structure Owner where
  owner_type : String
  id : Option String
  name : Option String
  icon_url : Option String
deriving DecidableEq, Repr

/-- Mirrors `struct Count`. -/
structure Count where
  view : Nat
  comment : Nat
  mylist : Nat
  like : Nat
deriving DecidableEq, Repr

/-- Mirrors `struct Thumbnail`. -/
structure Thumbnail where
  url : String
  middle_url : Option String
  large_url : Option String
  listing_url : Option String
  n_hd_url : Option String
deriving DecidableEq, Repr

/-- Mirrors `struct Video`.  `playback_position` is `Option<f32>` in Rust;
integer-literal JSON numbers suffice for the properties below, so it is
carried as `Option Int`. -/
structure Video where
  video_type : String
  id : String
  title : String
  registered_at : String
  count : Count
  thumbnail : Thumbnail
  duration : Nat
  short_description : String
  latest_comment_summary : String
  is_channel_video : Bool
  is_payment_required : Bool
  playback_position : Option Int
  owner : Owner
  require_sensitive_masking : Bool
  video_live : Option String
  n_9d091f87 : Bool
  n_acf68865 : Bool
deriving DecidableEq, Repr

/-- Mirrors `struct Item`. -/
structure Item where
  item_id : Nat
  watch_id : String
  description : String
  added_at : String
  status : String
  video : Video
deriving DecidableEq, Repr

/-- Mirrors `struct Mylist`. -/
structure Mylist where
  id : Nat
  is_public : Bool
  name : String
  description : String
  default_sort_key : String
  default_sort_order : String
  items_count : Nat
  owner : Owner
  sample_items : List Item
  follower_count : Nat
  created_at : String
  is_following : Bool
deriving DecidableEq, Repr

/-- Mirrors `struct MylistsResponse`. -/
structure MylistsResponse where
  mylists : List Mylist
deriving DecidableEq, Repr

/-- Mirrors `struct MylistDetail`. -/
structure MylistDetail where
  id : Nat
  name : String
  description : String
  default_sort_key : String
  default_sort_order : String
  items : List Item
  total_item_count : Nat
  has_next : Bool
  is_public : Bool
  owner : Owner
  has_invisible_items : Bool
  follower_count : Nat
  is_following : Bool
deriving DecidableEq, Repr

/-- Mirrors `struct MylistResponse`. -/
structure MylistResponse where
  mylist : MylistDetail
deriving DecidableEq, Repr

/-- Mirrors `enum Error`.  `Http` carries an opaque transport-error tag in
place of `reqwest::Error`; `Json` stands for any `serde_json::Error`. -/
inductive Error where
  | Status (e : NicoError)
  | Http (tag : Nat)
  | Json
deriving DecidableEq, Repr

/-! ## Deserialization (serde `Deserialize` derive semantics)

A struct field decodes by key lookup in the JSON object; unknown keys are
ignored (serde's default).  A required field must be present and well-typed.
An `Option` field is `none` when the key is missing or bound to `null`.
A `Vec` field marked `#[serde(default)]` decodes to `[]` when the key is
missing; when present it must be a well-typed array. -/

def Json.asStr : Json → Option String
  | .str s => some s
  | _ => none

def Json.asNat : Json → Option Nat
  | .num n => if n < 0 then none else some n.toNat
  | _ => none

def Json.asInt : Json → Option Int
  | .num n => some n
  | _ => none

def Json.asBool : Json → Option Bool
  | .bool b => some b
  | _ => none

def Json.asArr : Json → Option (List Json)
  | .arr elems => some elems
  | _ => none

/-- Required struct field. -/
def Json.reqField (j : Json) (key : String) (dec : Json → Option α) : Option α :=
  (j.getKey key).bind dec

/-- `Option<_>` struct field: missing or `null` is `none`. -/
def Json.optField (j : Json) (key : String) (dec : Json → Option α) :
    Option (Option α) :=
  match j.getKey key with
  | none => some none
  | some .null => some none
  | some v => (dec v).map some

/-- `#[serde(default)] Vec<_>` struct field: missing is `[]`. -/
def Json.listFieldD (j : Json) (key : String) (dec : Json → Option α) :
    Option (List α) :=
  match j.getKey key with
  | none => some []
  | some v => v.asArr.bind (List.mapM dec)

def decodeNicoMeta (j : Json) : Option NicoMeta := do
  let status ← j.reqField "status" Json.asNat
  let error_code ← j.optField "errorCode" Json.asStr
  pure ⟨status, error_code⟩

def decodeNicoError (j : Json) : Option NicoError := do
  let meta ← j.reqField "meta" decodeNicoMeta
  pure ⟨meta⟩

/-- `NicoResult<T>`: both `meta` and `data` are required fields. -/
def decodeNicoResult (dec : Json → Option T) (j : Json) : Option (NicoResult T) := do
  let meta ← j.reqField "meta" decodeNicoMeta
  let d ← j.reqField "data" dec
  pure ⟨meta, d⟩

def decodeOwner (j : Json) : Option Owner := do
  let owner_type ← j.reqField "ownerType" Json.asStr
  let id ← j.optField "id" Json.asStr
  let name ← j.optField "name" Json.asStr
  let icon_url ← j.optField "iconUrl" Json.asStr
  pure ⟨owner_type, id, name, icon_url⟩

def decodeCount (j : Json) : Option Count := do
  let view ← j.reqField "view" Json.asNat
  let comment ← j.reqField "comment" Json.asNat
  let mylist ← j.reqField "mylist" Json.asNat
  let like ← j.reqField "like" Json.asNat
  pure ⟨view, comment, mylist, like⟩

def decodeThumbnail (j : Json) : Option Thumbnail := do
  let url ← j.reqField "url" Json.asStr
  let middle_url ← j.optField "middleUrl" Json.asStr
  let large_url ← j.optField "largeUrl" Json.asStr
  let listing_url ← j.optField "listingUrl" Json.asStr
  let n_hd_url ← j.optField "nHdUrl" Json.asStr
  pure ⟨url, middle_url, large_url, listing_url, n_hd_url⟩

/-- `Video` deserialization: `rename_all = "camelCase"` plus the three
deserialize-side renames `type`, `9d091f87`, `acf68865`. -/
def decodeVideo (j : Json) : Option Video := do
  let video_type ← j.reqField "type" Json.asStr
  let id ← j.reqField "id" Json.asStr
  let title ← j.reqField "title" Json.asStr
  let registered_at ← j.reqField "registeredAt" Json.asStr
  let count ← j.reqField "count" decodeCount
  let thumbnail ← j.reqField "thumbnail" decodeThumbnail
  let duration ← j.reqField "duration" Json.asNat
  let short_description ← j.reqField "shortDescription" Json.asStr
  let latest_comment_summary ← j.reqField "latestCommentSummary" Json.asStr
  let is_channel_video ← j.reqField "isChannelVideo" Json.asBool
  let is_payment_required ← j.reqField "isPaymentRequired" Json.asBool
  let playback_position ← j.optField "playbackPosition" Json.asInt
  let owner ← j.reqField "owner" decodeOwner
  let require_sensitive_masking ← j.reqField "requireSensitiveMasking" Json.asBool
  let video_live ← j.optField "videoLive" Json.asStr
  let n_9d091f87 ← j.reqField "9d091f87" Json.asBool
  let n_acf68865 ← j.reqField "acf68865" Json.asBool
  pure ⟨video_type, id, title, registered_at, count, thumbnail, duration,
        short_description, latest_comment_summary, is_channel_video,
        is_payment_required, playback_position, owner,
        require_sensitive_masking, video_live, n_9d091f87, n_acf68865⟩

def decodeItem (j : Json) : Option Item := do
  let item_id ← j.reqField "itemId" Json.asNat
  let watch_id ← j.reqField "watchId" Json.asStr
  let description ← j.reqField "description" Json.asStr
  let added_at ← j.reqField "addedAt" Json.asStr
  let status ← j.reqField "status" Json.asStr
  let video ← j.reqField "video" decodeVideo
  pure ⟨item_id, watch_id, description, added_at, status, video⟩

def decodeMylist (j : Json) : Option Mylist := do
  let id ← j.reqField "id" Json.asNat
  let is_public ← j.reqField "isPublic" Json.asBool
  let name ← j.reqField "name" Json.asStr
  let description ← j.reqField "description" Json.asStr
  let default_sort_key ← j.reqField "defaultSortKey" Json.asStr
  let default_sort_order ← j.reqField "defaultSortOrder" Json.asStr
  let items_count ← j.reqField "itemsCount" Json.asNat
  let owner ← j.reqField "owner" decodeOwner
  let sample_items ← j.listFieldD "sampleItems" decodeItem
  let follower_count ← j.reqField "followerCount" Json.asNat
  let created_at ← j.reqField "createdAt" Json.asStr
  let is_following ← j.reqField "isFollowing" Json.asBool
  pure ⟨id, is_public, name, description, default_sort_key, default_sort_order,
        items_count, owner, sample_items, follower_count, created_at,
        is_following⟩

def decodeMylistsResponse (j : Json) : Option MylistsResponse := do
  let mylists ← j.listFieldD "mylists" decodeMylist
  pure ⟨mylists⟩

def decodeMylistDetail (j : Json) : Option MylistDetail := do
  let id ← j.reqField "id" Json.asNat
  let name ← j.reqField "name" Json.asStr
  let description ← j.reqField "description" Json.asStr
  let default_sort_key ← j.reqField "defaultSortKey" Json.asStr
  let default_sort_order ← j.reqField "defaultSortOrder" Json.asStr
  let items ← j.listFieldD "items" decodeItem
  let total_item_count ← j.reqField "totalItemCount" Json.asNat
  let has_next ← j.reqField "hasNext" Json.asBool
  let is_public ← j.reqField "isPublic" Json.asBool
  let owner ← j.reqField "owner" decodeOwner
  let has_invisible_items ← j.reqField "hasInvisibleItems" Json.asBool
  let follower_count ← j.reqField "followerCount" Json.asNat
  let is_following ← j.reqField "isFollowing" Json.asBool
  pure ⟨id, name, description, default_sort_key, default_sort_order, items,
        total_item_count, has_next, is_public, owner, has_invisible_items,
        follower_count, is_following⟩

def decodeMylistResponse (j : Json) : Option MylistResponse := do
  let mylist ← j.reqField "mylist" decodeMylistDetail
  pure ⟨mylist⟩

/-! ## Serialization (serde `Serialize` derive semantics)

Serialization emits every field in declaration order under the
`rename_all = "camelCase"` name of the *Rust* field: the
`rename(deserialize = ...)` attributes on `Video` do not apply to the
serialize side, so `video_type`, `n_9d091f87` and `n_acf68865` serialize as
`videoType`, `n9d091f87` and `nAcf68865`.  `Option` fields serialize `none`
as `null`. -/

def encodeOpt (enc : α → Json) : Option α → Json
  | none => .null
  | some a => enc a

def encodeNicoMeta (m : NicoMeta) : Json :=
  .obj [("status", .num m.status),
        ("errorCode", encodeOpt Json.str m.error_code)]

def encodeOwner (o : Owner) : Json :=
  .obj [("ownerType", .str o.owner_type),
        ("id", encodeOpt Json.str o.id),
        ("name", encodeOpt Json.str o.name),
        ("iconUrl", encodeOpt Json.str o.icon_url)]

def encodeCount (c : Count) : Json :=
  .obj [("view", .num c.view),
        ("comment", .num c.comment),
        ("mylist", .num c.mylist),
        ("like", .num c.like)]

def encodeThumbnail (t : Thumbnail) : Json :=
  .obj [("url", .str t.url),
        ("middleUrl", encodeOpt Json.str t.middle_url),
        ("largeUrl", encodeOpt Json.str t.large_url),
        ("listingUrl", encodeOpt Json.str t.listing_url),
        ("nHdUrl", encodeOpt Json.str t.n_hd_url)]

def encodeVideo (v : Video) : Json :=
  .obj [("videoType", .str v.video_type),
        ("id", .str v.id),
        ("title", .str v.title),
        ("registeredAt", .str v.registered_at),
        ("count", encodeCount v.count),
        ("thumbnail", encodeThumbnail v.thumbnail),
        ("duration", .num v.duration),
        ("shortDescription", .str v.short_description),
        ("latestCommentSummary", .str v.latest_comment_summary),
        ("isChannelVideo", .bool v.is_channel_video),
        ("isPaymentRequired", .bool v.is_payment_required),
        ("playbackPosition", encodeOpt Json.num v.playback_position),
        ("owner", encodeOwner v.owner),
        ("requireSensitiveMasking", .bool v.require_sensitive_masking),
        ("videoLive", encodeOpt Json.str v.video_live),
        ("n9d091f87", .bool v.n_9d091f87),
        ("nAcf68865", .bool v.n_acf68865)]

def encodeItem (it : Item) : Json :=
  .obj [("itemId", .num it.item_id),
        ("watchId", .str it.watch_id),
        ("description", .str it.description),
        ("addedAt", .str it.added_at),
        ("status", .str it.status),
        ("video", encodeVideo it.video)]

def encodeMylistDetail (d : MylistDetail) : Json :=
  .obj [("id", .num d.id),
        ("name", .str d.name),
        ("description", .str d.description),
        ("defaultSortKey", .str d.default_sort_key),
        ("defaultSortOrder", .str d.default_sort_order),
        ("items", .arr (d.items.map encodeItem)),
        ("totalItemCount", .num d.total_item_count),
        ("hasNext", .bool d.has_next),
        ("isPublic", .bool d.is_public),
        ("owner", encodeOwner d.owner),
        ("hasInvisibleItems", .bool d.has_invisible_items),
        ("followerCount", .num d.follower_count),
        ("isFollowing", .bool d.is_following)]

def encodeMylistResponse (r : MylistResponse) : Json :=
  .obj [("mylist", encodeMylistDetail r.mylist)]

def encodeNicoResult (enc : T → Json) (r : NicoResult T) : Json :=
  .obj [("meta", encodeNicoMeta r.meta),
        ("data", enc r.data)]

/-! ## Request construction and per-request response handling -/

/-- An outgoing HTTP GET request: URL plus headers. -/
structure Request where
  url : String
  headers : List (String × String)
deriving DecidableEq, Repr

/-- The request built by `get_my_mylists` (src/lib.rs lines 155-168). -/
def get_my_mylists_request (sample_item_count : Nat) : Request :=
  { url := "https://nvapi.nicovideo.jp/v1/users/me/mylists?sampleItemCount="
             ++ toString sample_item_count,
    headers := [("X-Frontend-Id", "6")] }

/-- The request built by `get_mylist` (src/lib.rs lines 219-231). -/
def get_mylist_request (id page_size page : Nat) : Request :=
  { url := "https://nvapi.nicovideo.jp/v1/users/me/mylists/" ++ toString id
             ++ "?pageSize=" ++ toString page_size ++ "&page=" ++ toString page,
    headers := [("X-Frontend-Id", "6")] }

/-- Outcome of one transport round trip: either a network failure
(`reqwest::Error`, tagged opaquely) or a status code with a body. -/
inductive TransportResult where
  | fail (tag : Nat)
  | ok (status : Nat) (body : Json)

/-- Shared status-check-then-decode discipline of `get_my_mylists`
(lines 172-182) and `get_mylist` (lines 235-245): a transport failure is
`Error.Http`; a status above 299 decodes the body as the error envelope
(`Error.Status` on success, `Error.Json` on decode failure); otherwise the
body decodes as `NicoResult<T>` (`Error.Json` on decode failure). -/
def handle_response (dec : Json → Option T) :
    TransportResult → Except Error (NicoResult T)
  | .fail tag => .error (.Http tag)
  | .ok status body =>
    if 299 < status then
      match decodeNicoError body with
      | some err => .error (.Status err)
      | none => .error .Json
    else
      match decodeNicoResult dec body with
      | some r => .ok r
      | none => .error .Json

/-- Response handling of `get_my_mylists`. -/
def get_my_mylists_result : TransportResult → Except Error (NicoResult MylistsResponse) :=
  handle_response decodeMylistsResponse

/-- Response handling of `get_mylist`. -/
def get_mylist_result : TransportResult → Except Error (NicoResult MylistResponse) :=
  handle_response decodeMylistResponse

/-! ## `get_mylist_all` (src/lib.rs lines 248-271)

The network is abstracted as a server oracle mapping the arguments that
`get_mylist_all` passes to `get_mylist` — page size and page number — to
`get_mylist`'s result.  The Rust `loop` has no bound, so it is embedded
with a fuel parameter: `none` in the first component means the fuel ran out
with the loop still running.  The second component is a ghost log of the
`(page_size, page)` argument pairs of the `get_mylist` calls made, in
order. -/

def get_mylist_all_loop
    (server : Nat → Nat → Except Error (NicoResult MylistResponse)) :
    Nat → Nat → List Item → List (Nat × Nat) →
    Option (Except Error (List Item)) × List (Nat × Nat)
  | 0, _, _, log => (none, log)
  | fuel + 1, page, extend_items, log =>
    match server 100 page with
    | .error e => (some (.error e), log ++ [(100, page)])
    | .ok next_mylist =>
      let extend_items := extend_items ++ next_mylist.data.mylist.items
      let log := log ++ [(100, page)]
      if next_mylist.data.mylist.has_next then
        get_mylist_all_loop server fuel (page + 1) extend_items log
      else
        (some (.ok extend_items), log)

def get_mylist_all
    (server : Nat → Nat → Except Error (NicoResult MylistResponse))
    (fuel : Nat) :
    Option (Except Error (NicoResult MylistResponse)) × List (Nat × Nat) :=
  match server 100 1 with
  | .error e => (some (.error e), [(100, 1)])
  | .ok first_mylist =>
    if first_mylist.data.mylist.has_next then
      match get_mylist_all_loop server fuel 2 [] [(100, 1)] with
      | (none, log) => (none, log)
      | (some (.error e), log) => (some (.error e), log)
      | (some (.ok extend_items), log) =>
        (some (.ok { first_mylist with
                      data := { first_mylist.data with
                                mylist := { first_mylist.data.mylist with
                                            items := first_mylist.data.mylist.items
                                                       ++ extend_items } } }),
         log)
    else
      (some (.ok first_mylist), [(100, 1)])

/-- `get_mylist_all` composed with the per-request HTTP handling: the
server oracle here yields raw transport outcomes, decoded by `get_mylist`'s
response handling exactly as in the Rust composition. -/
def get_mylist_all_http (hserver : Nat → Nat → TransportResult) (fuel : Nat) :
    Option (Except Error (NicoResult MylistResponse)) × List (Nat × Nat) :=
  get_mylist_all (fun page_size page => get_mylist_result (hserver page_size page)) fuel

/-! ## Loop lemmas -/

/-- If the server answers pages `p, …, p + m` with `pages`, all of them with
`hasNext = true` except the last, the accumulation loop started at page `p`
with enough fuel returns the accumulator extended by those pages' items in
page order, logging exactly the requests `(100, p), …, (100, p + m)`. -/
theorem get_mylist_all_loop_ok
    (server : Nat → Nat → Except Error (NicoResult MylistResponse))
    (pages : Nat → NicoResult MylistResponse) :
    ∀ (m p fuel : Nat) (acc : List Item) (log : List (Nat × Nat)),
      m < fuel →
      (∀ j, p ≤ j → j ≤ p + m → server 100 j = .ok (pages j)) →
      (∀ j, p ≤ j → j < p + m → (pages j).data.mylist.has_next = true) →
      (pages (p + m)).data.mylist.has_next = false →
      get_mylist_all_loop server fuel p acc log =
        (some (.ok (acc ++ ((List.range' p (m + 1)).map
            (fun j => (pages j).data.mylist.items)).flatten)),
         log ++ (List.range' p (m + 1)).map (fun j => (100, j))) := by
  intro m
  induction m with
  | zero =>
    intro p fuel acc log hfuel hok hnext hlast
    obtain ⟨f, rfl⟩ : ∃ f, fuel = f + 1 := ⟨fuel - 1, by omega⟩
    have hp : server 100 p = .ok (pages p) := hok p le_rfl (by omega)
    simp only [get_mylist_all_loop, hp]
    have : (pages p).data.mylist.has_next = false := by simpa using hlast
    simp [this, List.range'_succ]
  | succ m ih =>
    intro p fuel acc log hfuel hok hnext hlast
    obtain ⟨f, rfl⟩ : ∃ f, fuel = f + 1 := ⟨fuel - 1, by omega⟩
    have hp : server 100 p = .ok (pages p) := hok p le_rfl (by omega)
    have htrue : (pages p).data.mylist.has_next = true :=
      hnext p le_rfl (by omega)
    simp only [get_mylist_all_loop, hp, htrue, if_true]
    rw [ih (p + 1) f (acc ++ (pages p).data.mylist.items) (log ++ [(100, p)])
          (by omega)
          (fun j h1 h2 => hok j (by omega) (by omega))
          (fun j h1 h2 => hnext j (by omega) (by omega))
          (by have : p + 1 + m = p + (m + 1) := by omega
              rw [this]; exact hlast)]
    rw [List.range'_succ p (m + 1) 1]
    simp [List.append_assoc]

/-- If the server answers pages `p, …, p + m - 1` with `hasNext = true` and
fails at page `p + m`, the loop propagates exactly that error, logging the
requests `(100, p), …, (100, p + m)`. -/
theorem get_mylist_all_loop_err
    (server : Nat → Nat → Except Error (NicoResult MylistResponse))
    (pages : Nat → NicoResult MylistResponse) (e : Error) :
    ∀ (m p fuel : Nat) (acc : List Item) (log : List (Nat × Nat)),
      m < fuel →
      (∀ j, p ≤ j → j < p + m → server 100 j = .ok (pages j)) →
      (∀ j, p ≤ j → j < p + m → (pages j).data.mylist.has_next = true) →
      server 100 (p + m) = .error e →
      get_mylist_all_loop server fuel p acc log =
        (some (.error e),
         log ++ (List.range' p (m + 1)).map (fun j => (100, j))) := by
  intro m
  induction m with
  | zero =>
    intro p fuel acc log hfuel hok hnext herr
    obtain ⟨f, rfl⟩ : ∃ f, fuel = f + 1 := ⟨fuel - 1, by omega⟩
    have hp : server 100 p = .error e := by simpa using herr
    simp [get_mylist_all_loop, hp, List.range'_succ]
  | succ m ih =>
    intro p fuel acc log hfuel hok hnext herr
    obtain ⟨f, rfl⟩ : ∃ f, fuel = f + 1 := ⟨fuel - 1, by omega⟩
    have hp : server 100 p = .ok (pages p) := hok p le_rfl (by omega)
    have htrue : (pages p).data.mylist.has_next = true :=
      hnext p le_rfl (by omega)
    simp only [get_mylist_all_loop, hp, htrue, if_true]
    rw [ih (p + 1) f (acc ++ (pages p).data.mylist.items) (log ++ [(100, p)])
          (by omega)
          (fun j h1 h2 => hok j (by omega) (by omega))
          (fun j h1 h2 => hnext j (by omega) (by omega))
          (by have : p + 1 + m = p + (m + 1) := by omega
              rw [this]; exact herr)]
    rw [List.range'_succ p (m + 1) 1]
    simp

/-- If the loop returns at all (fuel did not run out), then some page at or
after its starting page either failed or arrived with `hasNext = false`. -/
theorem get_mylist_all_loop_term
    (server : Nat → Nat → Except Error (NicoResult MylistResponse)) :
    ∀ (fuel p : Nat) (acc : List Item) (log : List (Nat × Nat)) res log2,
      get_mylist_all_loop server fuel p acc log = (some res, log2) →
      ∃ j, p ≤ j ∧
        ((∃ e, server 100 j = .error e) ∨
         (∃ r, server 100 j = .ok r ∧ r.data.mylist.has_next = false)) := by
  intro fuel
  induction fuel with
  | zero => intro p acc log res log2 h; simp [get_mylist_all_loop] at h
  | succ f ih =>
    intro p acc log res log2 h
    simp only [get_mylist_all_loop] at h
    cases hp : server 100 p with
    | error e => exact ⟨p, le_rfl, Or.inl ⟨e, hp⟩⟩
    | ok next_mylist =>
      rw [hp] at h
      by_cases hn : next_mylist.data.mylist.has_next = true
      · simp only [hn, if_true] at h
        obtain ⟨j, hj, hcase⟩ := ih (p + 1) _ _ res log2 h
        exact ⟨j, by omega, hcase⟩
      · exact ⟨p, le_rfl, Or.inr ⟨next_mylist, hp, by simpa using hn⟩⟩

/-! ## Claim theorems: pagination aggregation -/

/-- General successful multi-page run: if pages `1, …, N` all arrive and
only page `N` has `hasNext = false`, the aggregate is page 1's envelope
with the items of all `N` pages, and the log is `(100, 1), …, (100, N)`. -/
theorem get_mylist_all_ok_spec
    (server : Nat → Nat → Except Error (NicoResult MylistResponse))
    (pages : Nat → NicoResult MylistResponse) (N fuel : Nat)
    (hN : 2 ≤ N) (hfuel : N ≤ fuel + 1)
    (hok : ∀ j, 1 ≤ j → j ≤ N → server 100 j = .ok (pages j))
    (htrue : ∀ j, 1 ≤ j → j < N → (pages j).data.mylist.has_next = true)
    (hlast : (pages N).data.mylist.has_next = false) :
    get_mylist_all server fuel =
      (some (.ok { pages 1 with
                    data := { (pages 1).data with
                              mylist := { (pages 1).data.mylist with
                                          items := ((List.range' 1 N).map
                                            (fun j => (pages j).data.mylist.items)).flatten } } }),
       (List.range' 1 N).map (fun j => (100, j))) := by
  obtain ⟨m, rfl⟩ : ∃ m, N = m + 2 := ⟨N - 2, by omega⟩
  have h0 : server 100 1 = .ok (pages 1) := hok 1 le_rfl (by omega)
  have h1 : (pages 1).data.mylist.has_next = true := htrue 1 le_rfl (by omega)
  simp only [get_mylist_all, h0, h1, if_true]
  rw [get_mylist_all_loop_ok server pages m 2 fuel [] [(100, 1)]
        (by omega)
        (fun j ha hb => hok j (by omega) (by omega))
        (fun j ha hb => htrue j (by omega) (by omega))
        (by have h2m : 2 + m = m + 2 := by omega
            rw [h2m]; exact hlast)]
  have hsplit : List.range' 1 (m + 2) = 1 :: List.range' 2 (m + 1) := by
    rw [List.range'_succ 1 (m + 1) 1]
  rw [hsplit]
  simp

/-- Claim C1: for every server-provided sequence of `N` pages (`N ≥ 2`) in
which every page except the last has `hasNext = true`, `get_mylist_all`
issues exactly `N` requests with page numbers `1, …, N` in order, each with
page size 100, and the returned envelope's items are the concatenation of
the pages' items in page order. -/
theorem get_mylist_all_pagination
    (pages : Nat → NicoResult MylistResponse) (N fuel : Nat)
    (hN : 2 ≤ N) (hfuel : N ≤ fuel + 1)
    (htrue : ∀ j, 1 ≤ j → j < N → (pages j).data.mylist.has_next = true)
    (hlast : (pages N).data.mylist.has_next = false) :
    get_mylist_all (fun _ page => .ok (pages page)) fuel =
      (some (.ok { pages 1 with
                    data := { (pages 1).data with
                              mylist := { (pages 1).data.mylist with
                                          items := ((List.range' 1 N).map
                                            (fun j => (pages j).data.mylist.items)).flatten } } }),
       (List.range' 1 N).map (fun j => (100, j))) :=
  get_mylist_all_ok_spec (fun _ page => .ok (pages page)) pages N fuel
    hN hfuel (fun j _ _ => rfl) htrue hlast

/-- Claim C2: when the page-1 response succeeds with `hasNext = false`,
`get_mylist_all` returns exactly that first envelope, items unmodified,
after exactly one request. -/
theorem get_mylist_all_single_page
    (server : Nat → Nat → Except Error (NicoResult MylistResponse))
    (fuel : Nat) (first_mylist : NicoResult MylistResponse)
    (h1 : server 100 1 = .ok first_mylist)
    (h2 : first_mylist.data.mylist.has_next = false) :
    get_mylist_all server fuel = (some (.ok first_mylist), [(100, 1)]) := by
  simp [get_mylist_all, h1, h2]

/-- Claim C6: if the first failing page request is page `k` (the earlier
pages all succeeded with `hasNext = true`), the whole aggregation returns
exactly that error — no partial aggregate of the earlier pages' items. -/
theorem get_mylist_all_error_propagation
    (server : Nat → Nat → Except Error (NicoResult MylistResponse))
    (pages : Nat → NicoResult MylistResponse) (e : Error) (k fuel : Nat)
    (hk : 1 ≤ k) (hfuel : k ≤ fuel + 1)
    (hok : ∀ j, 1 ≤ j → j < k → server 100 j = .ok (pages j))
    (htrue : ∀ j, 1 ≤ j → j < k → (pages j).data.mylist.has_next = true)
    (herr : server 100 k = .error e) :
    get_mylist_all server fuel =
      (some (.error e), (List.range' 1 k).map (fun j => (100, j))) := by
  rcases Nat.lt_or_ge k 2 with hk2 | hk2
  · have hk1 : k = 1 := by omega
    subst hk1
    simp [get_mylist_all, herr, List.range'_succ]
  · obtain ⟨m, rfl⟩ : ∃ m, k = m + 2 := ⟨k - 2, by omega⟩
    have h1 : server 100 1 = .ok (pages 1) := hok 1 le_rfl (by omega)
    have htrue1 : (pages 1).data.mylist.has_next = true := htrue 1 le_rfl (by omega)
    simp only [get_mylist_all, h1, htrue1, if_true]
    rw [get_mylist_all_loop_err server pages e m 2 fuel [] [(100, 1)]
          (by omega)
          (fun j ha hb => hok j (by omega) (by omega))
          (fun j ha hb => htrue j (by omega) (by omega))
          (by have h2m : 2 + m = m + 2 := by omega
              rw [h2m]; exact herr)]
    have hsplit : List.range' 1 (m + 2) = 1 :: List.range' 2 (m + 1) := by
      rw [List.range'_succ 1 (m + 1) 1]
    rw [hsplit]
    simp

/-- Claim C9: in a successful multi-page aggregation, the returned envelope
is page 1's envelope with only `data.mylist.items` extended; in particular
`meta`, `has_next` (still `true`, page 1's value) and `total_item_count`
come from page 1's response, not from the last page fetched. -/
theorem get_mylist_all_frame
    (server : Nat → Nat → Except Error (NicoResult MylistResponse))
    (pages : Nat → NicoResult MylistResponse) (N fuel : Nat)
    (hN : 2 ≤ N) (hfuel : N ≤ fuel + 1)
    (hok : ∀ j, 1 ≤ j → j ≤ N → server 100 j = .ok (pages j))
    (htrue : ∀ j, 1 ≤ j → j < N → (pages j).data.mylist.has_next = true)
    (hlast : (pages N).data.mylist.has_next = false) :
    ∃ extend_items,
      get_mylist_all server fuel =
        (some (.ok { pages 1 with
                      data := { (pages 1).data with
                                mylist := { (pages 1).data.mylist with
                                            items := (pages 1).data.mylist.items
                                                       ++ extend_items } } }),
         (List.range' 1 N).map (fun j => (100, j))) ∧
      ({ (pages 1).data.mylist with
          items := (pages 1).data.mylist.items ++ extend_items }).has_next = true ∧
      ({ (pages 1).data.mylist with
          items := (pages 1).data.mylist.items ++ extend_items }).total_item_count
        = (pages 1).data.mylist.total_item_count := by
  obtain ⟨m, rfl⟩ : ∃ m, N = m + 2 := ⟨N - 2, by omega⟩
  have htrue1 : (pages 1).data.mylist.has_next = true := htrue 1 le_rfl (by omega)
  refine ⟨((List.range' 2 (m + 1)).map (fun j => (pages j).data.mylist.items)).flatten,
          ?_, ?_, rfl⟩
  · rw [get_mylist_all_ok_spec server pages (m + 2) fuel hN hfuel hok htrue hlast]
    have hsplit : List.range' 1 (m + 2) = 1 :: List.range' 2 (m + 1) := by
      rw [List.range'_succ 1 (m + 1) 1]
    rw [hsplit]
    simp
  · simpa using htrue1

/-- Claim C10: `get_mylist_all` makes exactly `k` requests (pages 1 … `k`)
and returns when page `k` is the first page with `has_next = false` and all
requests up to `k` succeed; conversely, whenever it returns at all, some
requested page either failed or had `has_next = false`; and a server that
always succeeds with `has_next = true` exhausts any amount of fuel — the
code has no page-count limit. -/
theorem get_mylist_all_termination
    (server : Nat → Nat → Except Error (NicoResult MylistResponse))
    (pages : Nat → NicoResult MylistResponse) (k fuel : Nat)
    (hk : 1 ≤ k) (hfuel : k ≤ fuel + 1)
    (hok : ∀ j, 1 ≤ j → j ≤ k → server 100 j = .ok (pages j))
    (htrue : ∀ j, 1 ≤ j → j < k → (pages j).data.mylist.has_next = true)
    (hlast : (pages k).data.mylist.has_next = false) :
    ((get_mylist_all server fuel).1 ≠ none ∧
     (get_mylist_all server fuel).2 = (List.range' 1 k).map (fun j => (100, j))) ∧
    (∀ (server2 : Nat → Nat → Except Error (NicoResult MylistResponse))
       (fuel2 : Nat) (res : Except Error (NicoResult MylistResponse))
       (log2 : List (Nat × Nat)),
       get_mylist_all server2 fuel2 = (some res, log2) →
       ∃ j, 1 ≤ j ∧
         ((∃ e, server2 100 j = .error e) ∨
          (∃ r, server2 100 j = .ok r ∧ r.data.mylist.has_next = false))) ∧
    (∀ (server3 : Nat → Nat → Except Error (NicoResult MylistResponse))
       (pages3 : Nat → NicoResult MylistResponse),
       (∀ j, 1 ≤ j → server3 100 j = .ok (pages3 j)) →
       (∀ j, 1 ≤ j → (pages3 j).data.mylist.has_next = true) →
       ∀ fuel3, (get_mylist_all server3 fuel3).1 = none) := by
  refine ⟨?_, ?_, ?_⟩
  · rcases Nat.lt_or_ge k 2 with hk2 | hk2
    · have hk1 : k = 1 := by omega
      subst hk1
      have h1 : server 100 1 = .ok (pages 1) := hok 1 le_rfl le_rfl
      have hres : get_mylist_all server fuel = (some (.ok (pages 1)), [(100, 1)]) := by
        simp [get_mylist_all, h1, hlast]
      rw [hres]
      exact ⟨by simp, by simp [List.range'_succ]⟩
    · rw [get_mylist_all_ok_spec server pages k fuel hk2 hfuel hok htrue hlast]
      exact ⟨by simp, rfl⟩
  · intro server2 fuel2 res log2 h
    simp only [get_mylist_all] at h
    cases h1 : server2 100 1 with
    | error e => exact ⟨1, le_rfl, Or.inl ⟨e, h1⟩⟩
    | ok first_mylist =>
      rw [h1] at h
      by_cases hn : first_mylist.data.mylist.has_next = true
      · simp only [hn, if_true] at h
        rcases hloop : get_mylist_all_loop server2 fuel2 2 [] [(100, 1)] with ⟨o, log3⟩
        rw [hloop] at h
        cases o with
        | none => simp at h
        | some res2 =>
          obtain ⟨j, hj, hcase⟩ :=
            get_mylist_all_loop_term server2 fuel2 2 [] [(100, 1)] res2 log3 hloop
          exact ⟨j, by omega, hcase⟩
      · exact ⟨1, le_rfl, Or.inr ⟨first_mylist, h1, by simpa using hn⟩⟩
  · intro server3 pages3 hok3 htrue3 fuel3
    have hloop : ∀ (f p : Nat) (acc : List Item) (log : List (Nat × Nat)),
        1 ≤ p → (get_mylist_all_loop server3 f p acc log).1 = none := by
      intro f
      induction f with
      | zero => intro p acc log hp; simp [get_mylist_all_loop]
      | succ f ihf =>
        intro p acc log hp
        simp only [get_mylist_all_loop, hok3 p hp, htrue3 p hp, if_true]
        exact ihf (p + 1) _ _ (by omega)
    simp only [get_mylist_all, hok3 1 le_rfl, htrue3 1 le_rfl, if_true]
    rcases hl : get_mylist_all_loop server3 fuel3 2 [] [(100, 1)] with ⟨o, log3⟩
    have := hloop fuel3 2 [] [(100, 1)] (by omega)
    rw [hl] at this
    simp at this
    subst this
    simp

/-! ## Concrete fixtures -/

def sampleOwner : Owner :=
  ⟨"user", some "123", some "someone", some "https://icon.example/1.png"⟩

def sampleCount : Count := ⟨5000, 12, 34, 56⟩

def sampleThumbnail : Thumbnail :=
  ⟨"https://img.example/base.jpg", some "https://img.example/m.jpg", none,
   some "https://img.example/l.jpg", none⟩

def sampleVideo : Video :=
  ⟨"essential", "sm9", "a title", "2020-01-01T00:00:00+09:00", sampleCount,
   sampleThumbnail, 212, "short text", "a comment", false, false, none,
   sampleOwner, false, none, true, false⟩

/-- An item distinguished by its `item_id`, so that concatenation order is
observable in the witnesses. -/
def mkItem (n : Nat) : Item :=
  ⟨n, "sm9", "note", "2021-05-01T12:00:00+09:00", "normal", sampleVideo⟩

def mkDetail (items : List Item) (hn : Bool) : MylistDetail :=
  ⟨71381719, "my list", "a description", "addedAt", "desc", items, 250, hn,
   true, sampleOwner, false, 4, false⟩

/-- Page `p` of a three-page mylist: one item per page, `has_next` true on
pages 1 and 2 only. -/
def pageW (p : Nat) : NicoResult MylistResponse :=
  ⟨⟨200, none⟩, ⟨mkDetail [mkItem p] (decide (p < 3))⟩⟩

/-- A single-page response: three items, `has_next = false`. -/
def pageOne3 : NicoResult MylistResponse :=
  ⟨⟨200, none⟩, ⟨mkDetail [mkItem 1, mkItem 2, mkItem 3] false⟩⟩

/-- Page `p` of a two-page mylist. -/
def pageW2 (p : Nat) : NicoResult MylistResponse :=
  ⟨⟨200, none⟩, ⟨mkDetail [mkItem p] (decide (p < 2))⟩⟩

/-! ## Witnesses for the pagination claims -/

/-- Witness for C1 at a concrete three-page server. -/
theorem get_mylist_all_pagination_witness :
    get_mylist_all (fun _ page => .ok (pageW page)) 5 =
      (some (.ok { pageW 1 with
                    data := { (pageW 1).data with
                              mylist := { (pageW 1).data.mylist with
                                          items := [mkItem 1, mkItem 2, mkItem 3] } } }),
       [(100, 1), (100, 2), (100, 3)]) :=
  get_mylist_all_pagination pageW 3 5 (by omega) (by omega)
    (by intro j h1 h2; interval_cases j <;> rfl) rfl

/-- Witness for C2 at a concrete one-page server. -/
theorem get_mylist_all_single_page_witness :
    get_mylist_all (fun _ _ => .ok pageOne3) 5 =
      (some (.ok pageOne3), [(100, 1)]) :=
  get_mylist_all_single_page (fun _ _ => .ok pageOne3) 5 pageOne3 rfl rfl

/-- Witness for C6 at a server whose page-2 request fails with a transport
error after a `has_next = true` page 1. -/
theorem get_mylist_all_error_propagation_witness :
    get_mylist_all (fun _ page => if page = 1 then .ok (pageW 1) else .error (.Http 7)) 5 =
      (some (.error (.Http 7)), [(100, 1), (100, 2)]) :=
  get_mylist_all_error_propagation
    (fun _ page => if page = 1 then .ok (pageW 1) else .error (.Http 7))
    (fun _ => pageW 1) (.Http 7) 2 5 (by omega) (by omega)
    (by intro j h1 h2; interval_cases j; rfl)
    (by intro j h1 h2; interval_cases j; rfl)
    rfl

/-- Witness for C9 at a concrete three-page server. -/
theorem get_mylist_all_frame_witness :
    (get_mylist_all (fun _ page => .ok (pageW page)) 6).2 =
      [(100, 1), (100, 2), (100, 3)] := by
  obtain ⟨ext, heq, -, -⟩ :=
    get_mylist_all_frame (fun _ page => .ok (pageW page)) pageW 3 6
      (by omega) (by omega) (fun j h1 h2 => rfl)
      (by intro j h1 h2; interval_cases j <;> rfl) rfl
  rw [heq]
  rfl

/-- Witness for C10 at a concrete two-page server. -/
theorem get_mylist_all_termination_witness :
    (get_mylist_all (fun _ page => .ok (pageW2 page)) 5).1 ≠ none ∧
    (get_mylist_all (fun _ page => .ok (pageW2 page)) 5).2 = [(100, 1), (100, 2)] :=
  (get_mylist_all_termination (fun _ page => .ok (pageW2 page)) pageW2 2 5
    (by omega) (by omega) (fun j h1 h2 => rfl)
    (by intro j h1 h2; interval_cases j; rfl) rfl).1

/-! ## Claim theorems: response handling and decoding -/

/-- The 404 error body of the spec's scenario. -/
def body404 : Json :=
  .obj [("meta", .obj [("status", .num 404), ("errorCode", .str "NOT_FOUND")])]

/-- Claim C4: for `get_my_mylists` and `get_mylist`, the operation fails
with a `Status` error carrying the decoded error envelope iff the HTTP
status exceeds 299 and the body decodes as the error-envelope shape, while
a status of at most 299 is decoded as the success envelope. -/
theorem handle_response_status_error (status : Nat) (body : Json) :
    (∀ e, get_my_mylists_result (.ok status body) = .error (.Status e) ↔
          299 < status ∧ decodeNicoError body = some e) ∧
    (∀ e, get_mylist_result (.ok status body) = .error (.Status e) ↔
          299 < status ∧ decodeNicoError body = some e) ∧
    (status ≤ 299 →
      get_my_mylists_result (.ok status body) =
        match decodeNicoResult decodeMylistsResponse body with
        | some r => .ok r
        | none => .error .Json) ∧
    (status ≤ 299 →
      get_mylist_result (.ok status body) =
        match decodeNicoResult decodeMylistResponse body with
        | some r => .ok r
        | none => .error .Json) := by
  simp only [get_my_mylists_result, get_mylist_result]
  have key : ∀ (T : Type) (dec : Json → Option T) (e : NicoError),
      handle_response dec (.ok status body) = .error (.Status e) ↔
      299 < status ∧ decodeNicoError body = some e := by
    intro T dec e
    simp only [handle_response]
    by_cases hs : 299 < status
    · simp only [hs, if_true, true_and]
      cases hdec : decodeNicoError body with
      | none => simp
      | some err =>
        constructor
        · intro h
          cases h
          rfl
        · intro h
          cases h
          rfl
    · simp only [hs, if_false, false_and, iff_false]
      cases hdec : decodeNicoResult dec body <;> simp
  refine ⟨key MylistsResponse decodeMylistsResponse,
          key MylistResponse decodeMylistResponse, ?_, ?_⟩
  · intro hs
    have hns : ¬ 299 < status := by omega
    simp only [handle_response, hns, if_false]
    cases decodeNicoResult decodeMylistsResponse body <;> rfl
  · intro hs
    have hns : ¬ 299 < status := by omega
    simp only [handle_response, hns, if_false]
    cases decodeNicoResult decodeMylistResponse body <;> rfl

/-- Witness for C4: the spec's 404 scenario, on both operations. -/
theorem handle_response_status_error_witness :
    get_mylist_result (.ok 404 body404) =
      .error (.Status ⟨⟨404, some "NOT_FOUND"⟩⟩) ∧
    get_my_mylists_result (.ok 404 body404) =
      .error (.Status ⟨⟨404, some "NOT_FOUND"⟩⟩) :=
  ⟨((handle_response_status_error 404 body404).2.1 ⟨⟨404, some "NOT_FOUND"⟩⟩).mpr
     ⟨by omega, rfl⟩,
   ((handle_response_status_error 404 body404).1 ⟨⟨404, some "NOT_FOUND"⟩⟩).mpr
     ⟨by omega, rfl⟩⟩

/-- Destructuring of a successful `Option.bind`. -/
theorem bind_some {α β : Type} {o : Option α} {f : α → Option β} {b : β}
    (h : o.bind f = some b) : ∃ a, o = some a ∧ f a = some b := by
  cases o with
  | none => simp at h
  | some a => exact ⟨a, rfl, h⟩

/-- Claim C7: when the wire payload omits `items` (MylistDetail),
`sampleItems` (Mylist) or `mylists` (MylistsResponse), any successful
decode yields an empty sequence for that field. -/
theorem default_empty_fields (j1 j2 j3 : Json)
    (h1 : j1.getKey "items" = none)
    (h2 : j2.getKey "sampleItems" = none)
    (h3 : j3.getKey "mylists" = none) :
    (∀ d, decodeMylistDetail j1 = some d → d.items = []) ∧
    (∀ m, decodeMylist j2 = some m → m.sample_items = []) ∧
    (∀ r, decodeMylistsResponse j3 = some r → r.mylists = []) := by
  refine ⟨?_, ?_, ?_⟩
  · intro d hd
    unfold decodeMylistDetail at hd
    obtain ⟨a1, -, hd⟩ := bind_some hd
    obtain ⟨a2, -, hd⟩ := bind_some hd
    obtain ⟨a3, -, hd⟩ := bind_some hd
    obtain ⟨a4, -, hd⟩ := bind_some hd
    obtain ⟨a5, -, hd⟩ := bind_some hd
    obtain ⟨a6, ha6, hd⟩ := bind_some hd
    obtain ⟨a7, -, hd⟩ := bind_some hd
    obtain ⟨a8, -, hd⟩ := bind_some hd
    obtain ⟨a9, -, hd⟩ := bind_some hd
    obtain ⟨a10, -, hd⟩ := bind_some hd
    obtain ⟨a11, -, hd⟩ := bind_some hd
    obtain ⟨a12, -, hd⟩ := bind_some hd
    obtain ⟨a13, -, hd⟩ := bind_some hd
    simp only [Json.listFieldD, h1, Option.some.injEq] at ha6
    simp only [Option.pure_def, Option.some.injEq] at hd
    subst ha6
    subst hd
    rfl
  · intro m hm
    unfold decodeMylist at hm
    obtain ⟨a1, -, hm⟩ := bind_some hm
    obtain ⟨a2, -, hm⟩ := bind_some hm
    obtain ⟨a3, -, hm⟩ := bind_some hm
    obtain ⟨a4, -, hm⟩ := bind_some hm
    obtain ⟨a5, -, hm⟩ := bind_some hm
    obtain ⟨a6, -, hm⟩ := bind_some hm
    obtain ⟨a7, -, hm⟩ := bind_some hm
    obtain ⟨a8, -, hm⟩ := bind_some hm
    obtain ⟨a9, ha9, hm⟩ := bind_some hm
    obtain ⟨a10, -, hm⟩ := bind_some hm
    obtain ⟨a11, -, hm⟩ := bind_some hm
    obtain ⟨a12, -, hm⟩ := bind_some hm
    simp only [Json.listFieldD, h2, Option.some.injEq] at ha9
    simp only [Option.pure_def, Option.some.injEq] at hm
    subst ha9
    subst hm
    rfl
  · intro r hr
    unfold decodeMylistsResponse at hr
    obtain ⟨a1, ha1, hr⟩ := bind_some hr
    simp only [Json.listFieldD, h3, Option.some.injEq] at ha1
    simp only [Option.pure_def, Option.some.injEq] at hr
    subst ha1
    subst hr
    rfl

/-- Wire form of `sampleOwner`. -/
def ownerJson : Json :=
  .obj [("ownerType", .str "user"), ("id", .str "123"),
        ("name", .str "someone"), ("iconUrl", .str "https://icon.example/1.png")]

/-- A `MylistDetail` payload without an `items` key. -/
def detailJsonNoItems : Json :=
  .obj [("id", .num 71381719), ("name", .str "my list"),
        ("description", .str "a description"), ("defaultSortKey", .str "addedAt"),
        ("defaultSortOrder", .str "desc"), ("totalItemCount", .num 250),
        ("hasNext", .bool false), ("isPublic", .bool true),
        ("owner", ownerJson), ("hasInvisibleItems", .bool false),
        ("followerCount", .num 4), ("isFollowing", .bool false)]

/-- A `Mylist` payload without a `sampleItems` key. -/
def mylistJsonNoSamples : Json :=
  .obj [("id", .num 71381719), ("isPublic", .bool true),
        ("name", .str "my list"), ("description", .str "a description"),
        ("defaultSortKey", .str "addedAt"), ("defaultSortOrder", .str "desc"),
        ("itemsCount", .num 3), ("owner", ownerJson),
        ("followerCount", .num 4),
        ("createdAt", .str "2021-01-01T00:00:00+09:00"),
        ("isFollowing", .bool false)]

def sampleMylistNoSamples : Mylist :=
  ⟨71381719, true, "my list", "a description", "addedAt", "desc", 3,
   sampleOwner, [], 4, "2021-01-01T00:00:00+09:00", false⟩

/-- Witness for C7: decoding succeeds on payloads missing those keys, and
the three fields come back empty. -/
theorem default_empty_fields_witness :
    decodeMylistDetail detailJsonNoItems = some (mkDetail [] false) ∧
    (mkDetail [] false).items = [] ∧
    decodeMylist mylistJsonNoSamples = some sampleMylistNoSamples ∧
    sampleMylistNoSamples.sample_items = [] ∧
    decodeMylistsResponse (.obj []) = some ⟨[]⟩ ∧
    (⟨[]⟩ : MylistsResponse).mylists = [] :=
  ⟨rfl,
   (default_empty_fields detailJsonNoItems mylistJsonNoSamples (Json.obj [])
      rfl rfl rfl).1 (mkDetail [] false) rfl,
   rfl,
   (default_empty_fields detailJsonNoItems mylistJsonNoSamples (Json.obj [])
      rfl rfl rfl).2.1 sampleMylistNoSamples rfl,
   rfl,
   (default_empty_fields detailJsonNoItems mylistJsonNoSamples (Json.obj [])
      rfl rfl rfl).2.2 ⟨[]⟩ rfl⟩

/-- If the very first request fails, `get_mylist_all` returns that error
after the single request. -/
theorem get_mylist_all_first_error
    (server : Nat → Nat → Except Error (NicoResult MylistResponse))
    (fuel : Nat) (e : Error) (h : server 100 1 = .error e) :
    get_mylist_all server fuel = (some (.error e), [(100, 1)]) := by
  simp [get_mylist_all, h]

/-- A success-status body whose `data` field is `null`. -/
def noDataBody : Json :=
  .obj [("meta", .obj [("status", .num 200), ("errorCode", .null)]),
        ("data", .null)]

/-- Counterexample to C3 as stated: a status-200 page-1 response whose
`data` field is `null` is *not* treated as end-of-data — `NicoResult`'s
`data` field is mandatory, so `serde_json` decoding fails and
`get_mylist_all` returns `Error.Json` after its single request, instead of
returning an envelope. -/
theorem missing_data_counterexample :
    get_mylist_all_http (fun _ _ => .ok 200 noDataBody) 5 =
      (some (.error .Json), [(100, 1)]) := rfl

/-- Claim C3 (amended): a successful (status ≤ 299) response whose `data`
field is absent or `null` fails to decode; `get_mylist` surfaces
`Error.Json`, and when this happens on page 1, `get_mylist_all` aborts with
`Error.Json` after exactly one request instead of returning an envelope. -/
theorem missing_data_is_json_error (status : Nat) (body : Json)
    (hstatus : status ≤ 299)
    (hdata : body.getKey "data" = none ∨ body.getKey "data" = some .null) :
    get_mylist_result (.ok status body) = .error .Json ∧
    (∀ (hserver : Nat → Nat → TransportResult) (fuel : Nat),
      hserver 100 1 = .ok status body →
      get_mylist_all_http hserver fuel =
        (some (.error .Json), [(100, 1)])) := by
  have hdec : decodeNicoResult decodeMylistResponse body = none := by
    have hdata2 : (body.getKey "data").bind decodeMylistResponse = none := by
      rcases hdata with h | h <;> rw [h] <;> rfl
    unfold decodeNicoResult
    cases hmeta : (body.getKey "meta").bind decodeNicoMeta with
    | none =>
      show ((body.getKey "meta").bind decodeNicoMeta).bind _ = none
      rw [hmeta]
      rfl
    | some m =>
      show ((body.getKey "meta").bind decodeNicoMeta).bind _ = none
      rw [hmeta]
      show ((body.getKey "data").bind decodeMylistResponse).bind _ = none
      rw [hdata2]
      rfl
  have hres : get_mylist_result (.ok status body) = .error .Json := by
    have hns : ¬ 299 < status := by omega
    simp only [get_mylist_result, handle_response, hns, if_false, hdec]
  refine ⟨hres, ?_⟩
  intro hserver fuel hfirst
  exact get_mylist_all_first_error
    (fun page_size page => get_mylist_result (hserver page_size page)) fuel .Json
    (show get_mylist_result (hserver 100 1) = .error .Json by rw [hfirst]; exact hres)

/-- Witness for the amended C3 at the concrete null-`data` body. -/
theorem missing_data_is_json_error_witness :
    get_mylist_result (.ok 200 noDataBody) = .error .Json ∧
    get_mylist_all_http (fun _ _ => .ok 200 noDataBody) 7 =
      (some (.error .Json), [(100, 1)]) :=
  ⟨(missing_data_is_json_error 200 noDataBody (by omega) (Or.inr rfl)).1,
   (missing_data_is_json_error 200 noDataBody (by omega) (Or.inr rfl)).2
     (fun _ _ => .ok 200 noDataBody) 7 rfl⟩

/-- Claim C8: `get_my_mylists` requests
`/v1/users/me/mylists?sampleItemCount={n}`, `get_mylist` requests
`/v1/users/me/mylists/{id}?pageSize={page_size}&page={page}`, and both carry
the header `X-Frontend-Id: 6`; instantiated at the test fixture's values. -/
theorem request_shapes (sample_item_count id page_size page : Nat) :
    (get_my_mylists_request sample_item_count).url =
      "https://nvapi.nicovideo.jp/v1/users/me/mylists?sampleItemCount="
        ++ toString sample_item_count ∧
    (get_mylist_request id page_size page).url =
      "https://nvapi.nicovideo.jp/v1/users/me/mylists/" ++ toString id
        ++ "?pageSize=" ++ toString page_size ++ "&page=" ++ toString page ∧
    (get_my_mylists_request sample_item_count).headers = [("X-Frontend-Id", "6")] ∧
    (get_mylist_request id page_size page).headers = [("X-Frontend-Id", "6")] ∧
    (get_mylist_request 71381719 100 1).url =
      "https://nvapi.nicovideo.jp/v1/users/me/mylists/71381719?pageSize=100&page=1" ∧
    (get_my_mylists_request 4).url =
      "https://nvapi.nicovideo.jp/v1/users/me/mylists?sampleItemCount=4" :=
  ⟨rfl, rfl, rfl, rfl, by decide, by decide⟩

/-! ## Claim C5: serialize/deserialize round trip

`Video`'s three renames are `rename(deserialize = ...)` only: decoding
reads `type`, `9d091f87`, `acf68865`, but `Serialize` emits the camelCased
Rust field names `videoType`, `n9d091f87`, `nAcf68865`. -/

def countJson : Json :=
  .obj [("view", .num 5000), ("comment", .num 12),
        ("mylist", .num 34), ("like", .num 56)]

def thumbJson : Json :=
  .obj [("url", .str "https://img.example/base.jpg"),
        ("middleUrl", .str "https://img.example/m.jpg"),
        ("largeUrl", .null),
        ("listingUrl", .str "https://img.example/l.jpg"),
        ("nHdUrl", .null)]

/-- Captured wire form of `sampleVideo`. -/
def videoJson : Json :=
  .obj [("type", .str "essential"), ("id", .str "sm9"),
        ("title", .str "a title"),
        ("registeredAt", .str "2020-01-01T00:00:00+09:00"),
        ("count", countJson), ("thumbnail", thumbJson),
        ("duration", .num 212), ("shortDescription", .str "short text"),
        ("latestCommentSummary", .str "a comment"),
        ("isChannelVideo", .bool false), ("isPaymentRequired", .bool false),
        ("playbackPosition", .null), ("owner", ownerJson),
        ("requireSensitiveMasking", .bool false), ("videoLive", .null),
        ("9d091f87", .bool true), ("acf68865", .bool false)]

def itemJson : Json :=
  .obj [("itemId", .num 1), ("watchId", .str "sm9"),
        ("description", .str "note"),
        ("addedAt", .str "2021-05-01T12:00:00+09:00"),
        ("status", .str "normal"), ("video", videoJson)]

/-- A captured success body for `get_mylist` (one item). -/
def capBody : Json :=
  .obj [("meta", .obj [("status", .num 200), ("errorCode", .null)]),
        ("data", .obj [("mylist",
          .obj [("id", .num 71381719), ("name", .str "my list"),
                ("description", .str "a description"),
                ("defaultSortKey", .str "addedAt"),
                ("defaultSortOrder", .str "desc"),
                ("items", .arr [itemJson]),
                ("totalItemCount", .num 250), ("hasNext", .bool false),
                ("isPublic", .bool true), ("owner", ownerJson),
                ("hasInvisibleItems", .bool false),
                ("followerCount", .num 4), ("isFollowing", .bool false)])])]

/-- The value `capBody` decodes to. -/
def capVal : NicoResult MylistResponse :=
  ⟨⟨200, none⟩, ⟨mkDetail [mkItem 1] false⟩⟩

/-- `videoJson` as re-emitted by `Serialize`: identical except that the
three deserialize-renamed keys come out as `videoType`, `n9d091f87`,
`nAcf68865`. -/
def videoJsonReenc : Json :=
  .obj [("videoType", .str "essential"), ("id", .str "sm9"),
        ("title", .str "a title"),
        ("registeredAt", .str "2020-01-01T00:00:00+09:00"),
        ("count", countJson), ("thumbnail", thumbJson),
        ("duration", .num 212), ("shortDescription", .str "short text"),
        ("latestCommentSummary", .str "a comment"),
        ("isChannelVideo", .bool false), ("isPaymentRequired", .bool false),
        ("playbackPosition", .null), ("owner", ownerJson),
        ("requireSensitiveMasking", .bool false), ("videoLive", .null),
        ("n9d091f87", .bool true), ("nAcf68865", .bool false)]

/-- `capBody` as re-emitted by `Serialize`. -/
def capBodyReenc : Json :=
  .obj [("meta", .obj [("status", .num 200), ("errorCode", .null)]),
        ("data", .obj [("mylist",
          .obj [("id", .num 71381719), ("name", .str "my list"),
                ("description", .str "a description"),
                ("defaultSortKey", .str "addedAt"),
                ("defaultSortOrder", .str "desc"),
                ("items", .arr [.obj [("itemId", .num 1),
                                      ("watchId", .str "sm9"),
                                      ("description", .str "note"),
                                      ("addedAt", .str "2021-05-01T12:00:00+09:00"),
                                      ("status", .str "normal"),
                                      ("video", videoJsonReenc)]]),
                ("totalItemCount", .num 250), ("hasNext", .bool false),
                ("isPublic", .bool true), ("owner", ownerJson),
                ("hasInvisibleItems", .bool false),
                ("followerCount", .num 4), ("isFollowing", .bool false)])])]

/-- Navigates an envelope body to a key of the first item's video object. -/
def firstVideoKey (j : Json) (key : String) : Option Json :=
  (j.getKey "data").bind fun d =>
    (d.getKey "mylist").bind fun m =>
      (m.getKey "items").bind fun its =>
        (its.getIdx 0).bind fun it =>
          (it.getKey "video").bind fun v => v.getKey key

/-- Counterexample to C5 as stated: the captured body decodes fine, but
re-encoding does not preserve the wire names `type`, `9d091f87` and
`acf68865` — they are absent from the re-encoded video object. -/
theorem roundtrip_counterexample :
    decodeNicoResult decodeMylistResponse capBody = some capVal ∧
    firstVideoKey capBody "type" = some (.str "essential") ∧
    firstVideoKey capBody "9d091f87" = some (.bool true) ∧
    firstVideoKey capBody "acf68865" = some (.bool false) ∧
    firstVideoKey (encodeNicoResult encodeMylistResponse capVal) "type" = none ∧
    firstVideoKey (encodeNicoResult encodeMylistResponse capVal) "9d091f87" = none ∧
    firstVideoKey (encodeNicoResult encodeMylistResponse capVal) "acf68865" = none :=
  ⟨rfl, rfl, rfl, rfl, rfl, rfl, rfl⟩

/-- Claim C5 (amended): decoding the captured success body preserves every
documented field value, and re-encoding reproduces the body exactly except
that the three deserialize-only renames on `Video` come out under the
serialize-side names `videoType`, `n9d091f87` and `nAcf68865`; for every
`Video` the encoder emits those names and never the wire names. -/
theorem roundtrip_modulo_renames :
    decodeNicoResult decodeMylistResponse capBody = some capVal ∧
    encodeNicoResult encodeMylistResponse capVal = capBodyReenc ∧
    firstVideoKey capBodyReenc "videoType" = some (.str "essential") ∧
    firstVideoKey capBodyReenc "n9d091f87" = some (.bool true) ∧
    firstVideoKey capBodyReenc "nAcf68865" = some (.bool false) ∧
    (∀ v : Video,
      (encodeVideo v).getKey "videoType" = some (.str v.video_type) ∧
      (encodeVideo v).getKey "n9d091f87" = some (.bool v.n_9d091f87) ∧
      (encodeVideo v).getKey "nAcf68865" = some (.bool v.n_acf68865) ∧
      (encodeVideo v).getKey "type" = none ∧
      (encodeVideo v).getKey "9d091f87" = none ∧
      (encodeVideo v).getKey "acf68865" = none) :=
  ⟨rfl, rfl, rfl, rfl, rfl, fun v => ⟨rfl, rfl, rfl, rfl, rfl, rfl⟩⟩
